import Mathlib

/-!
Shallow embedding of the shape-to-training-sample pipeline of
`src/datasets/dualoctree_snet.py`: the `TransformShape` and `ReadFile`
classes.  Float tensors are modelled as lists of real numbers (exact real
arithmetic), NumPy random index draws (`np.random.choice`) are passed in
explicitly as index vectors, Python exceptions (KeyError, file-load errors,
NameError) are modelled with `Except String`, and the Python output dict of
`TransformShape.__call__` is modelled as an association list with
Python-dict insert/update semantics.
-/

namespace OctFusion

noncomputable section

/-- A row of an N×3 float tensor: one 3D position / normal / gradient. -/
structure Vec3 where
  x : ℝ
  y : ℝ
  z : ℝ

/-- Componentwise division of a 3-vector by a scalar (`xyz / s` in torch/numpy). -/
def Vec3.sdiv (v : Vec3) (s : ℝ) : Vec3 :=
  ⟨v.x / s, v.y / s, v.z / s⟩

/-- Clamp one scalar to the interval `[lo, hi]`. -/
def clamp1 (lo hi x : ℝ) : ℝ :=
  max lo (min hi x)

/-- Clamp every coordinate of a 3-vector to `[lo, hi]`. -/
def Vec3.clamp3 (lo hi : ℝ) (v : Vec3) : Vec3 :=
  ⟨clamp1 lo hi v.x, clamp1 lo hi v.y, clamp1 lo hi v.z⟩

/-- Squared Euclidean norm of a 3-vector. -/
def normSq (v : Vec3) : ℝ :=
  v.x ^ 2 + v.y ^ 2 + v.z ^ 2

/-- Euclidean norm of a 3-vector (`xyz.norm(p=2, dim=1)` on one row). -/
def norm3 (v : Vec3) : ℝ :=
  Real.sqrt (normSq v)

/-- The `ocnn.octree.Points` container built in `process_points_cloud`:
positions, normals, and the optional per-point feature (color) array. -/
structure Points where
  points : List Vec3
  normals : List Vec3
  features : Option (List (List ℝ))

/-- Modelled from the spec: `ocnn.octree.Points.clip` — the ocnn library is
not part of this repository's sources.  Per the spec, clipping is a hard
elementwise clamp of every position coordinate to `[lo, hi]` (a truncation,
not a rescale). -/
def Points.clip (p : Points) (lo hi : ℝ) : Points :=
  { p with points := p.points.map (Vec3.clamp3 lo hi) }

/-- The configuration flags consumed by both stages
(`flags` in `TransformShape.__init__` / `ReadFile.__init__`). -/
structure Flags where
  load_octree : Bool
  load_pointcloud : Bool
  load_color : Bool
  load_split_small : Bool
  load_split_large : Bool
  load_occu : Bool
  load_sdf : Bool
  sample_surf_points : Bool
  depth : Nat
  full_depth : Nat
  point_sample_num : Nat
  point_scale : ℝ

/-- The nested `point_cloud` mapping built by `ReadFile.__call__`:
`colors` is `none` exactly when the Python value is `None`. -/
structure PointCloudDict where
  points : List Vec3
  normals : List Vec3
  colors : Option (List (List ℝ))

/-- The nested `sdf` mapping (arrays `points`, `grad`, `sdf` of `sdf.npz`). -/
structure SdfDict where
  points : List Vec3
  grad : List Vec3
  sdf : List ℝ

/-- The nested `occu` mapping (arrays `points`, `occupancies` of `points.npz`). -/
structure OccuDict where
  points : List Vec3
  occupancies : List Bool

/-- The possible values of the reused local staging variable `raw` in
`ReadFile.__call__`: the result of the most recent `torch.load` / `np.load`.
Deserialized torch objects are opaque and carry only an identity tag. -/
inductive PyVal where
  | octFile (octree_in : Nat)
  | pcFile (points normals : List Vec3)
  | colorFile (colors : List (List ℝ))
  | tensorFile (t : Nat)
  | occuFile (points : List Vec3) (occupancies : List Bool)
  | sdfFile (d : SdfDict)

/-- The raw mapping returned by `ReadFile.__call__` and consumed by
`TransformShape.__call__`.  A field is `none` when the corresponding dict key
is absent (reading it raises KeyError).  The top-level `points` / `normals`
fields exist because `TransformShape.__call__` looks those keys up at the top
level of the sample; `ReadFile` itself never sets them. -/
structure RawSample where
  octree_in : Option Nat := none
  point_cloud : Option PointCloudDict := none
  split_small : Option PyVal := none
  split_large : Option PyVal := none
  occu : Option OccuDict := none
  sdf : Option SdfDict := none
  points : Option (List Vec3) := none
  normals : Option (List Vec3) := none

/-- The persisted shape record at one `filename` location: the content of each
file `ReadFile.__call__` may open.  A `none` field means the corresponding
load (`torch.load` / `np.load`) raises — the file is missing or corrupt. -/
structure ShapeRecord where
  octreeFile : Option Nat := none
  pointcloudFile : Option (List Vec3 × List Vec3) := none
  colorFile : Option (List (List ℝ)) := none
  splitSmallFile : Option Nat := none
  splitLargeFile : Option Nat := none
  occuFile : Option (List Vec3 × List Bool) := none
  sdfFile : Option SdfDict := none

/-- The loader state while `ReadFile.__call__` runs: the `output` mapping
built so far, and the staging variable `raw` (`none` = still unbound). -/
abbrev LoadState := RawSample × Option PyVal

/-- The `load_octree` block of `ReadFile.__call__`:
`raw = torch.load(octree_path); output['octree_in'] = raw['octree_in']`. -/
def readOctree (fl : Flags) (rec : ShapeRecord) (st : LoadState) :
    Except String LoadState :=
  if fl.load_octree then
    match rec.octreeFile with
    | some o => .ok ({ st.1 with octree_in := some o }, some (.octFile o))
    | none => .error "load failed: octree.pth"
  else .ok st

/-- The `load_pointcloud` block of `ReadFile.__call__`: read
`pointcloud.npz`; when `load_color` also read `color.npz`, else set the
`colors` entry to `None`. -/
def readPointcloud (fl : Flags) (rec : ShapeRecord) (st : LoadState) :
    Except String LoadState :=
  if fl.load_pointcloud then
    match rec.pointcloudFile with
    | some pn =>
      if fl.load_color then
        match rec.colorFile with
        | some c =>
          .ok ({ st.1 with point_cloud := some ⟨pn.1, pn.2, some c⟩ },
               some (.colorFile c))
        | none => .error "load failed: color.npz"
      else
        .ok ({ st.1 with point_cloud := some ⟨pn.1, pn.2, none⟩ },
             some (.pcFile pn.1 pn.2))
    | none => .error "load failed: pointcloud.npz"
  else .ok st

/-- The `load_split_small` block of `ReadFile.__call__`: a failing
`torch.load` propagates. -/
def readSplitSmall (fl : Flags) (rec : ShapeRecord) (st : LoadState) :
    Except String LoadState :=
  if fl.load_split_small then
    match rec.splitSmallFile with
    | some t => .ok ({ st.1 with split_small := some (.tensorFile t) },
                     some (.tensorFile t))
    | none => .error "load failed: split_small.pth"
  else .ok st

/-- The `load_split_large` block of `ReadFile.__call__`: the `torch.load` is
wrapped in `try/except` that only prints; `output['split_large'] = raw` then
runs unconditionally.  On a failed load the staging variable keeps its
previous value: if an earlier block bound it, that stale value is stored;
if it is still unbound, the reference itself raises a NameError. -/
def readSplitLarge (fl : Flags) (rec : ShapeRecord) (st : LoadState) :
    Except String LoadState :=
  if fl.load_split_large then
    match rec.splitLargeFile with
    | some t => .ok ({ st.1 with split_large := some (.tensorFile t) },
                     some (.tensorFile t))
    | none =>
      match st.2 with
      | some v => .ok ({ st.1 with split_large := some v }, some v)
      | none => .error "NameError: raw"
  else .ok st

/-- The `load_occu` block of `ReadFile.__call__`. -/
def readOccu (fl : Flags) (rec : ShapeRecord) (st : LoadState) :
    Except String LoadState :=
  if fl.load_occu then
    match rec.occuFile with
    | some po => .ok ({ st.1 with occu := some ⟨po.1, po.2⟩ },
                      some (.occuFile po.1 po.2))
    | none => .error "load failed: points.npz"
  else .ok st

/-- The `load_sdf` block of `ReadFile.__call__`. -/
def readSdf (fl : Flags) (rec : ShapeRecord) (st : LoadState) :
    Except String LoadState :=
  if fl.load_sdf then
    match rec.sdfFile with
    | some d => .ok ({ st.1 with sdf := some d }, some (.sdfFile d))
    | none => .error "load failed: sdf.npz"
  else .ok st

/-- `ReadFile.__call__(filename)`: the six load blocks in source order over an
initially empty output mapping and an unbound staging variable.  The
`ShapeRecord` is the content of the files at the `filename` location. -/
def ReadFile.call (fl : Flags) (rec : ShapeRecord) : Except String RawSample :=
  (((((((readOctree fl rec (({} : RawSample), none)).bind
    (readPointcloud fl rec)).bind
    (readSplitSmall fl rec)).bind
    (readSplitLarge fl rec)).bind
    (readOccu fl rec)).bind
    (readSdf fl rec)).map Prod.fst)

/-- `TransformShape.process_points_cloud`: divide positions by
`point_scale`, build the `Points` container (attaching colors as features
when `load_color`), then clip to `[-1, 1]`. -/
def process_points_cloud (fl : Flags) (sample : PointCloudDict) : Points :=
  let pts := sample.points.map (fun v => v.sdiv fl.point_scale)
  let points_gt : Points :=
    { points := pts
      normals := sample.normals
      features := if fl.load_color then sample.colors else none }
  points_gt.clip (-1) 1

/-- `array[rand_idx]` for an index vector: fancy-indexing gather.  Out-of-range
indices yield the default (NumPy would raise; the theorems carry the
in-range hypothesis of `np.random.choice`). -/
def gather {α : Type} (xs : List α) (idx : List Nat) (d : α) : List α :=
  idx.map (fun i => xs.getD i d)

/-- The `pos` / `sdf` / `grad` triple produced by the three samplers. -/
structure SdfSamples where
  pos : List Vec3
  sdf : List ℝ
  grad : List Vec3

/-- `TransformShape.sample_sdf`: rescale the field's points by
`point_scale`, then gather points / sdf / grad at the drawn indices
(`rand_idx` is the result of `np.random.choice(M, size=point_sample_num)`). -/
def sample_sdf (fl : Flags) (sample : SdfDict) (rand_idx : List Nat) :
    SdfSamples :=
  let points := sample.points.map (fun v => v.sdiv fl.point_scale)
  { pos := gather points rand_idx ⟨0, 0, 0⟩
    sdf := gather sample.sdf rand_idx 0
    grad := gather sample.grad rand_idx ⟨0, 0, 0⟩ }

/-- `TransformShape.sample_on_surface`: gather positions and normals at the
drawn indices; `sdf = torch.zeros(point_sample_num)`. -/
def sample_on_surface (fl : Flags) (points normals : List Vec3)
    (rand_idx : List Nat) : SdfSamples :=
  { pos := gather points rand_idx ⟨0, 0, 0⟩
    sdf := List.replicate fl.point_sample_num 0
    grad := gather normals rand_idx ⟨0, 0, 0⟩ }

/-- `TransformShape.sample_off_surface`: rescale by `point_scale`, gather at
the drawn indices, set `grad = xyz / (xyz.norm(p=2, dim=1) + 1e-6)` rowwise
and `sdf = -1 * torch.ones(point_sample_num)`. -/
def sample_off_surface (fl : Flags) (xyz : List Vec3) (rand_idx : List Nat) :
    SdfSamples :=
  let xyz1 := xyz.map (fun v => v.sdiv fl.point_scale)
  let xyz2 := gather xyz1 rand_idx ⟨0, 0, 0⟩
  { pos := xyz2
    sdf := List.replicate fl.point_sample_num (-1)
    grad := xyz2.map (fun v => v.sdiv (norm3 v + 1 / 1000000)) }

/-- A value stored in the output mapping of `TransformShape.__call__`. -/
inductive Val where
  | blob (id : Nat)
  | py (v : PyVal)
  | pts (p : Points)
  | arr3 (rows : List Vec3)
  | arr1 (xs : List ℝ)

/-- The output mapping of `TransformShape.__call__`, with Python-dict
key semantics (at most one binding per key). -/
abbrev OutDict := List (String × Val)

/-- Python `d[k]`: look the key up. -/
def dget : OutDict → String → Option Val
  | [], _ => none
  | (k1, v) :: tl, k => if k1 = k then some v else dget tl k

/-- Python `d[k] = v`: bind the key, overwriting an existing binding.  (The
binding moves to the end of the association list; key set and lookup agree
with a Python dict, only the iteration order of previously-bound keys is not
tracked, and no claim concerns it.) -/
def dinsert (d : OutDict) (k : String) (v : Val) : OutDict :=
  d.filter (fun p => p.1 != k) ++ [(k, v)]

/-- Python `d.update(d2)`. -/
def dupdate (d d2 : OutDict) : OutDict :=
  d2.foldl (fun acc p => dinsert acc p.1 p.2) d

/-- Step 1 of `TransformShape.__call__`:
`output['octree_in'] = sample['octree_in']`. -/
def tfOctree (fl : Flags) (sample : RawSample) (output : OutDict) :
    Except String OutDict :=
  if fl.load_octree then
    match sample.octree_in with
    | some o => .ok (dinsert output "octree_in" (.blob o))
    | none => .error "KeyError: octree_in"
  else .ok output

/-- Step 2 of `TransformShape.__call__`:
`output = self.process_points_cloud(sample['point_cloud'])` — note the
assignment REPLACES the whole output mapping. -/
def tfPointcloud (fl : Flags) (sample : RawSample) (output : OutDict) :
    Except String OutDict :=
  if fl.load_pointcloud then
    match sample.point_cloud with
    | some pc => .ok [("points", Val.pts (process_points_cloud fl pc))]
    | none => .error "KeyError: point_cloud"
  else .ok output

/-- Step 3a of `TransformShape.__call__`:
`output['split_small'] = sample['split_small']`. -/
def tfSplitSmall (fl : Flags) (sample : RawSample) (output : OutDict) :
    Except String OutDict :=
  if fl.load_split_small then
    match sample.split_small with
    | some s => .ok (dinsert output "split_small" (.py s))
    | none => .error "KeyError: split_small"
  else .ok output

/-- Step 3b of `TransformShape.__call__`:
`output['split_large'] = sample['split_large']`. -/
def tfSplitLarge (fl : Flags) (sample : RawSample) (output : OutDict) :
    Except String OutDict :=
  if fl.load_split_large then
    match sample.split_large with
    | some s => .ok (dinsert output "split_large" (.py s))
    | none => .error "KeyError: split_large"
  else .ok output

/-- Step 4 of `TransformShape.__call__`:
`output.update(self.sample_sdf(sample['sdf']))`, with the dict literal order
`pos`, `sdf`, `grad` of `sample_sdf`. -/
def tfSdf (fl : Flags) (sample : RawSample) (sdfIdx : List Nat)
    (output : OutDict) : Except String OutDict :=
  if fl.load_sdf then
    match sample.sdf with
    | some sd =>
      let s := sample_sdf fl sd sdfIdx
      .ok (dupdate output
        [("pos", .arr3 s.pos), ("sdf", .arr1 s.sdf), ("grad", .arr3 s.grad)])
    | none => .error "KeyError: sdf"
  else .ok output

/-- Step 5 of `TransformShape.__call__`: on/off-surface synthesis.  It looks
up `sample['points']` and `sample['normals']` at the TOP level of the raw
mapping, and `sample['sdf']['points']`; concatenates the on-surface set
before the off-surface set; and merges with `output.update`, dict literal
order `pos`, `grad`, `sdf`. -/
def tfSurf (fl : Flags) (sample : RawSample) (onIdx offIdx : List Nat)
    (output : OutDict) : Except String OutDict :=
  if fl.sample_surf_points then
    match sample.points with
    | none => .error "KeyError: points"
    | some pts =>
      match sample.normals with
      | none => .error "KeyError: normals"
      | some nrm =>
        match sample.sdf with
        | none => .error "KeyError: sdf"
        | some sd =>
          let on_surf := sample_on_surface fl pts nrm onIdx
          let off_surf := sample_off_surface fl sd.points offIdx
          .ok (dupdate output
            [("pos", .arr3 (on_surf.pos ++ off_surf.pos)),
             ("grad", .arr3 (on_surf.grad ++ off_surf.grad)),
             ("sdf", .arr1 (on_surf.sdf ++ off_surf.sdf))])
  else .ok output

/-- `TransformShape.__call__(sample, idx)`: the five flag-gated steps in
source order.  `idx` is the unused sample index of the Python signature;
`sdfIdx`, `onIdx`, `offIdx` are the index vectors drawn by the three
`np.random.choice` calls (the process-wide RNG made explicit). -/
def TransformShape.call (fl : Flags) (sample : RawSample) (_idx : Nat)
    (sdfIdx onIdx offIdx : List Nat) : Except String OutDict :=
  (((((tfOctree fl sample []).bind
    (tfPointcloud fl sample)).bind
    (tfSplitSmall fl sample)).bind
    (tfSplitLarge fl sample)).bind
    (tfSdf fl sample sdfIdx)).bind
    (tfSurf fl sample onIdx offIdx)

end

/-! ### Helper lemmas: lists, gather, dict operations, Except inversion -/

theorem exceptBind_ok {α β : Type} {x : Except String α} {f : α → Except String β}
    {b : β} (h : x.bind f = .ok b) : ∃ a, x = .ok a ∧ f a = .ok b := by
  cases x with
  | error e => simp [Except.bind] at h
  | ok a => exact ⟨a, rfl, by simpa [Except.bind] using h⟩

theorem exceptMap_ok {α β : Type} {x : Except String α} {f : α → β} {b : β}
    (h : x.map f = .ok b) : ∃ a, x = .ok a ∧ f a = b := by
  cases x with
  | error e => simp [Except.map] at h
  | ok a => exact ⟨a, rfl, by simpa [Except.map] using h⟩

theorem getD_map_of_lt {α β : Type} (f : α → β) (l : List α) {i : Nat}
    (h : i < l.length) (d : α) (d2 : β) :
    (l.map f).getD i d2 = f (l.getD i d) := by
  rw [List.getD_eq_getElem _ _ (by simpa using h), List.getElem_map,
    List.getD_eq_getElem _ _ h]

theorem gather_length {α : Type} (xs : List α) (idx : List Nat) (d : α) :
    (gather xs idx d).length = idx.length := by
  simp [gather]

theorem gather_getD {α : Type} (xs : List α) (idx : List Nat) (d : α) {k : Nat}
    (hk : k < idx.length) :
    (gather xs idx d).getD k d = xs.getD (idx.getD k 0) d := by
  simpa [gather] using getD_map_of_lt (fun i => xs.getD i d) idx hk 0 d

theorem getD_replicate_of_lt {α : Type} (a d : α) {n k : Nat} (hk : k < n) :
    (List.replicate n a).getD k d = a := by
  rw [List.getD_eq_getElem _ _ (by simpa using hk)]
  simp

theorem dget_cons (hd : String × Val) (tl : OutDict) (k : String) :
    dget (hd :: tl) k = if hd.1 = k then some hd.2 else dget tl k := rfl

theorem dinsert_cons (hd : String × Val) (tl : OutDict) (k : String) (v : Val) :
    dinsert (hd :: tl) k v =
      if hd.1 = k then dinsert tl k v else hd :: dinsert tl k v := by
  by_cases h : hd.1 = k <;> simp [dinsert, List.filter_cons, h]

theorem dget_dinsert_self (d : OutDict) (k : String) (v : Val) :
    dget (dinsert d k v) k = some v := by
  induction d with
  | nil => simp [dget, dinsert]
  | cons hd tl ih =>
    rw [dinsert_cons]
    by_cases h : hd.1 = k
    · simpa [h] using ih
    · rw [if_neg h, dget_cons, if_neg h]
      exact ih

theorem dget_dinsert_ne (d : OutDict) {k k2 : String} (v : Val) (h : k2 ≠ k) :
    dget (dinsert d k v) k2 = dget d k2 := by
  induction d with
  | nil => simp [dget, dinsert, Ne.symm h]
  | cons hd tl ih =>
    rw [dinsert_cons]
    by_cases h1 : hd.1 = k
    · rw [if_pos h1, dget_cons, if_neg (by rw [h1]; exact Ne.symm h)]
      exact ih
    · rw [if_neg h1, dget_cons, dget_cons]
      by_cases h2 : hd.1 = k2
      · rw [if_pos h2, if_pos h2]
      · rw [if_neg h2, if_neg h2]
        exact ih

/-! ### Per-step specifications of the Raw Loader blocks -/

theorem readOctree_spec {fl : Flags} {rec : ShapeRecord} {st st' : LoadState}
    (h : readOctree fl rec st = .ok st') :
    st'.1.octree_in.isSome = (fl.load_octree || st.1.octree_in.isSome) ∧
    st'.1.point_cloud = st.1.point_cloud ∧
    st'.1.split_small = st.1.split_small ∧
    st'.1.split_large = st.1.split_large ∧
    st'.1.occu = st.1.occu ∧
    st'.1.sdf = st.1.sdf ∧
    st'.1.points = st.1.points ∧
    st'.1.normals = st.1.normals := by
  unfold readOctree at h
  cases hfl : fl.load_octree with
  | false =>
    rw [hfl, if_neg (by simp)] at h
    cases h
    simp
  | true =>
    rw [hfl, if_pos rfl] at h
    cases hrec : rec.octreeFile with
    | none => rw [hrec] at h; cases h
    | some o => rw [hrec] at h; cases h; simp

theorem readPointcloud_spec {fl : Flags} {rec : ShapeRecord} {st st' : LoadState}
    (h : readPointcloud fl rec st = .ok st') :
    st'.1.point_cloud.isSome = (fl.load_pointcloud || st.1.point_cloud.isSome) ∧
    st'.1.octree_in = st.1.octree_in ∧
    st'.1.split_small = st.1.split_small ∧
    st'.1.split_large = st.1.split_large ∧
    st'.1.occu = st.1.occu ∧
    st'.1.sdf = st.1.sdf ∧
    st'.1.points = st.1.points ∧
    st'.1.normals = st.1.normals := by
  unfold readPointcloud at h
  cases hfl : fl.load_pointcloud with
  | false =>
    rw [hfl, if_neg (by simp)] at h
    cases h
    simp
  | true =>
    rw [hfl, if_pos rfl] at h
    cases hrec : rec.pointcloudFile with
    | none => rw [hrec] at h; cases h
    | some pn =>
      rw [hrec] at h
      cases hc : fl.load_color with
      | false =>
        simp only [hc, Bool.false_eq_true, if_false] at h
        cases h
        simp
      | true =>
        simp only [hc, if_true] at h
        cases hcf : rec.colorFile with
        | none => rw [hcf] at h; cases h
        | some c => rw [hcf] at h; cases h; simp

theorem readSplitSmall_spec {fl : Flags} {rec : ShapeRecord} {st st' : LoadState}
    (h : readSplitSmall fl rec st = .ok st') :
    st'.1.split_small.isSome = (fl.load_split_small || st.1.split_small.isSome) ∧
    st'.1.octree_in = st.1.octree_in ∧
    st'.1.point_cloud = st.1.point_cloud ∧
    st'.1.split_large = st.1.split_large ∧
    st'.1.occu = st.1.occu ∧
    st'.1.sdf = st.1.sdf ∧
    st'.1.points = st.1.points ∧
    st'.1.normals = st.1.normals := by
  unfold readSplitSmall at h
  cases hfl : fl.load_split_small with
  | false =>
    rw [hfl, if_neg (by simp)] at h
    cases h
    simp
  | true =>
    rw [hfl, if_pos rfl] at h
    cases hrec : rec.splitSmallFile with
    | none => rw [hrec] at h; cases h
    | some t => rw [hrec] at h; cases h; simp

theorem readSplitLarge_spec {fl : Flags} {rec : ShapeRecord} {st st' : LoadState}
    (h : readSplitLarge fl rec st = .ok st') :
    st'.1.split_large.isSome = (fl.load_split_large || st.1.split_large.isSome) ∧
    st'.1.octree_in = st.1.octree_in ∧
    st'.1.point_cloud = st.1.point_cloud ∧
    st'.1.split_small = st.1.split_small ∧
    st'.1.occu = st.1.occu ∧
    st'.1.sdf = st.1.sdf ∧
    st'.1.points = st.1.points ∧
    st'.1.normals = st.1.normals := by
  unfold readSplitLarge at h
  cases hfl : fl.load_split_large with
  | false =>
    rw [hfl, if_neg (by simp)] at h
    cases h
    simp
  | true =>
    rw [hfl, if_pos rfl] at h
    cases hrec : rec.splitLargeFile with
    | some t => rw [hrec] at h; cases h; simp
    | none =>
      rw [hrec] at h
      cases hraw : st.2 with
      | none => rw [hraw] at h; cases h
      | some v => rw [hraw] at h; cases h; simp

theorem readOccu_spec {fl : Flags} {rec : ShapeRecord} {st st' : LoadState}
    (h : readOccu fl rec st = .ok st') :
    st'.1.occu.isSome = (fl.load_occu || st.1.occu.isSome) ∧
    st'.1.octree_in = st.1.octree_in ∧
    st'.1.point_cloud = st.1.point_cloud ∧
    st'.1.split_small = st.1.split_small ∧
    st'.1.split_large = st.1.split_large ∧
    st'.1.sdf = st.1.sdf ∧
    st'.1.points = st.1.points ∧
    st'.1.normals = st.1.normals := by
  unfold readOccu at h
  cases hfl : fl.load_occu with
  | false =>
    rw [hfl, if_neg (by simp)] at h
    cases h
    simp
  | true =>
    rw [hfl, if_pos rfl] at h
    cases hrec : rec.occuFile with
    | none => rw [hrec] at h; cases h
    | some po => rw [hrec] at h; cases h; simp

theorem readSdf_spec {fl : Flags} {rec : ShapeRecord} {st st' : LoadState}
    (h : readSdf fl rec st = .ok st') :
    st'.1.sdf.isSome = (fl.load_sdf || st.1.sdf.isSome) ∧
    st'.1.octree_in = st.1.octree_in ∧
    st'.1.point_cloud = st.1.point_cloud ∧
    st'.1.split_small = st.1.split_small ∧
    st'.1.split_large = st.1.split_large ∧
    st'.1.occu = st.1.occu ∧
    st'.1.points = st.1.points ∧
    st'.1.normals = st.1.normals := by
  unfold readSdf at h
  cases hfl : fl.load_sdf with
  | false =>
    rw [hfl, if_neg (by simp)] at h
    cases h
    simp
  | true =>
    rw [hfl, if_pos rfl] at h
    cases hrec : rec.sdfFile with
    | none => rw [hrec] at h; cases h
    | some d => rw [hrec] at h; cases h; simp

/-- Decompose a successful `ReadFile.call` into its six successful blocks. -/
theorem readFile_call_decomp {fl : Flags} {rec : ShapeRecord} {out : RawSample}
    (h : ReadFile.call fl rec = .ok out) :
    ∃ s1 s2 s3 s4 s5 s6 : LoadState,
      readOctree fl rec (({} : RawSample), none) = .ok s1 ∧
      readPointcloud fl rec s1 = .ok s2 ∧
      readSplitSmall fl rec s2 = .ok s3 ∧
      readSplitLarge fl rec s3 = .ok s4 ∧
      readOccu fl rec s4 = .ok s5 ∧
      readSdf fl rec s5 = .ok s6 ∧
      out = s6.1 := by
  unfold ReadFile.call at h
  obtain ⟨s6, h6, hout⟩ := exceptMap_ok h
  obtain ⟨s5, h5, h6⟩ := exceptBind_ok h6
  obtain ⟨s4, h4, h5⟩ := exceptBind_ok h5
  obtain ⟨s3, h3, h4⟩ := exceptBind_ok h4
  obtain ⟨s2, h2, h3⟩ := exceptBind_ok h3
  obtain ⟨s1, h1, h2⟩ := exceptBind_ok h2
  exact ⟨s1, s2, s3, s4, s5, s6, h1, h2, h3, h4, h5, h6, hout.symm⟩

/-- Gating invariant of the Raw Loader: on success, each of the six flags
gates exactly its own key, and the top-level `points` / `normals` keys are
never produced. -/
theorem readFile_gating {fl : Flags} {rec : ShapeRecord} {out : RawSample}
    (h : ReadFile.call fl rec = .ok out) :
    out.octree_in.isSome = fl.load_octree ∧
    out.point_cloud.isSome = fl.load_pointcloud ∧
    out.split_small.isSome = fl.load_split_small ∧
    out.split_large.isSome = fl.load_split_large ∧
    out.occu.isSome = fl.load_occu ∧
    out.sdf.isSome = fl.load_sdf ∧
    out.points = none ∧
    out.normals = none := by
  obtain ⟨s1, s2, s3, s4, s5, s6, h1, h2, h3, h4, h5, h6, hout⟩ :=
    readFile_call_decomp h
  obtain ⟨a1, b1, c1, d1, e1, f1, g1, i1⟩ := readOctree_spec h1
  obtain ⟨a2, b2, c2, d2, e2, f2, g2, i2⟩ := readPointcloud_spec h2
  obtain ⟨a3, b3, c3, d3, e3, f3, g3, i3⟩ := readSplitSmall_spec h3
  obtain ⟨a4, b4, c4, d4, e4, f4, g4, i4⟩ := readSplitLarge_spec h4
  obtain ⟨a5, b5, c5, d5, e5, f5, g5, i5⟩ := readOccu_spec h5
  obtain ⟨a6, b6, c6, d6, e6, f6, g6, i6⟩ := readSdf_spec h6
  subst hout
  refine ⟨?_, ?_, ?_, ?_, ?_, ?_, ?_, ?_⟩
  · rw [b6, b5, b4, b3, b2, a1]; simp
  · rw [c6, c5, c4, c3, a2, b1]; simp
  · rw [d6, d5, d4, a3, c2, c1]; simp
  · rw [e6, e5, a4, d3, d2, d1]; simp
  · rw [f6, a5, e4, e3, e2, e1]; simp
  · rw [a6, f5, f4, f3, f2, f1]; simp
  · rw [g6, g5, g4, g3, g2, g1]
  · rw [i6, i5, i4, i3, i2, i1]

/-! ### Per-step frame lemmas for the Shape Transform steps -/

theorem tfOctree_frame {fl : Flags} {sample : RawSample} {o o' : OutDict}
    (h : tfOctree fl sample o = .ok o') {k : String} (hk : k ≠ "octree_in") :
    dget o' k = dget o k := by
  unfold tfOctree at h
  cases hfl : fl.load_octree with
  | false => simp only [hfl, Bool.false_eq_true, if_false] at h; cases h; rfl
  | true =>
    simp only [hfl, if_true] at h
    cases hs : sample.octree_in with
    | none => rw [hs] at h; cases h
    | some s => rw [hs] at h; cases h; exact dget_dinsert_ne _ _ hk

theorem tfSplitSmall_frame {fl : Flags} {sample : RawSample} {o o' : OutDict}
    (h : tfSplitSmall fl sample o = .ok o') {k : String} (hk : k ≠ "split_small") :
    dget o' k = dget o k := by
  unfold tfSplitSmall at h
  cases hfl : fl.load_split_small with
  | false => simp only [hfl, Bool.false_eq_true, if_false] at h; cases h; rfl
  | true =>
    simp only [hfl, if_true] at h
    cases hs : sample.split_small with
    | none => rw [hs] at h; cases h
    | some s => rw [hs] at h; cases h; exact dget_dinsert_ne _ _ hk

theorem tfSplitLarge_frame {fl : Flags} {sample : RawSample} {o o' : OutDict}
    (h : tfSplitLarge fl sample o = .ok o') {k : String} (hk : k ≠ "split_large") :
    dget o' k = dget o k := by
  unfold tfSplitLarge at h
  cases hfl : fl.load_split_large with
  | false => simp only [hfl, Bool.false_eq_true, if_false] at h; cases h; rfl
  | true =>
    simp only [hfl, if_true] at h
    cases hs : sample.split_large with
    | none => rw [hs] at h; cases h
    | some s => rw [hs] at h; cases h; exact dget_dinsert_ne _ _ hk

theorem dupdate_triple (o : OutDict) (k1 k2 k3 : String) (v1 v2 v3 : Val) :
    dupdate o [(k1, v1), (k2, v2), (k3, v3)] =
      dinsert (dinsert (dinsert o k1 v1) k2 v2) k3 v3 := by
  simp [dupdate]

theorem tfSdf_frame {fl : Flags} {sample : RawSample} {sdfIdx : List Nat}
    {o o' : OutDict} (h : tfSdf fl sample sdfIdx o = .ok o') {k : String}
    (h1 : k ≠ "pos") (h2 : k ≠ "sdf") (h3 : k ≠ "grad") :
    dget o' k = dget o k := by
  unfold tfSdf at h
  cases hfl : fl.load_sdf with
  | false => simp only [hfl, Bool.false_eq_true, if_false] at h; cases h; rfl
  | true =>
    simp only [hfl, if_true] at h
    cases hs : sample.sdf with
    | none => rw [hs] at h; cases h
    | some sd =>
      rw [hs] at h
      cases h
      rw [dupdate_triple, dget_dinsert_ne _ _ h3, dget_dinsert_ne _ _ h2,
        dget_dinsert_ne _ _ h1]

theorem tfSurf_frame {fl : Flags} {sample : RawSample} {onIdx offIdx : List Nat}
    {o o' : OutDict} (h : tfSurf fl sample onIdx offIdx o = .ok o') {k : String}
    (h1 : k ≠ "pos") (h2 : k ≠ "sdf") (h3 : k ≠ "grad") :
    dget o' k = dget o k := by
  unfold tfSurf at h
  cases hfl : fl.sample_surf_points with
  | false => simp only [hfl, Bool.false_eq_true, if_false] at h; cases h; rfl
  | true =>
    simp only [hfl, if_true] at h
    cases hp : sample.points with
    | none => rw [hp] at h; cases h
    | some pts =>
      rw [hp] at h
      cases hn : sample.normals with
      | none => rw [hn] at h; cases h
      | some nrm =>
        rw [hn] at h
        cases hsd : sample.sdf with
        | none => rw [hsd] at h; cases h
        | some sd =>
          rw [hsd] at h
          cases h
          rw [dupdate_triple, dget_dinsert_ne _ _ h2, dget_dinsert_ne _ _ h3,
            dget_dinsert_ne _ _ h1]

/-- Decompose a successful `TransformShape.call` into its successful steps. -/
theorem transform_call_decomp {fl : Flags} {sample : RawSample} {idx : Nat}
    {sdfIdx onIdx offIdx : List Nat} {out : OutDict}
    (h : TransformShape.call fl sample idx sdfIdx onIdx offIdx = .ok out) :
    ∃ o1 o2 o3 o4 o5 : OutDict,
      tfOctree fl sample [] = .ok o1 ∧
      tfPointcloud fl sample o1 = .ok o2 ∧
      tfSplitSmall fl sample o2 = .ok o3 ∧
      tfSplitLarge fl sample o3 = .ok o4 ∧
      tfSdf fl sample sdfIdx o4 = .ok o5 ∧
      tfSurf fl sample onIdx offIdx o5 = .ok out := by
  unfold TransformShape.call at h
  obtain ⟨o5, h5, h6⟩ := exceptBind_ok h
  obtain ⟨o4, h4, h5⟩ := exceptBind_ok h5
  obtain ⟨o3, h3, h4⟩ := exceptBind_ok h4
  obtain ⟨o2, h2, h3⟩ := exceptBind_ok h3
  obtain ⟨o1, h1, h2⟩ := exceptBind_ok h2
  exact ⟨o1, o2, o3, o4, o5, h1, h2, h3, h4, h5, h6⟩

/-- On success, step 5 of the transform rewrote `pos`, `grad`, `sdf` with the
concatenated on/off-surface synthesis whenever `sample_surf_points` is set. -/
theorem tfSurf_values {fl : Flags} {sample : RawSample} {onIdx offIdx : List Nat}
    {o o' : OutDict} (h : tfSurf fl sample onIdx offIdx o = .ok o')
    (hs : fl.sample_surf_points = true) {P N : List Vec3} {SD : SdfDict}
    (hP : sample.points = some P) (hN : sample.normals = some N)
    (hSD : sample.sdf = some SD) :
    dget o' "pos" = some (.arr3 ((sample_on_surface fl P N onIdx).pos ++
        (sample_off_surface fl SD.points offIdx).pos)) ∧
    dget o' "grad" = some (.arr3 ((sample_on_surface fl P N onIdx).grad ++
        (sample_off_surface fl SD.points offIdx).grad)) ∧
    dget o' "sdf" = some (.arr1 ((sample_on_surface fl P N onIdx).sdf ++
        (sample_off_surface fl SD.points offIdx).sdf)) := by
  unfold tfSurf at h
  rw [hs, if_pos rfl, hP, hN, hSD] at h
  cases h
  rw [dupdate_triple]
  refine ⟨?_, ?_, ?_⟩
  · rw [dget_dinsert_ne _ _ (by decide), dget_dinsert_ne _ _ (by decide),
      dget_dinsert_self]
  · rw [dget_dinsert_ne _ _ (by decide), dget_dinsert_self]
  · rw [dget_dinsert_self]

theorem le_clamp1 (lo hi x : ℝ) : lo ≤ clamp1 lo hi x :=
  le_max_left _ _

theorem clamp1_le (lo hi x : ℝ) (h : lo ≤ hi) : clamp1 lo hi x ≤ hi :=
  max_le h (min_le_left _ _)

theorem process_points_cloud_points (fl : Flags) (pc : PointCloudDict) :
    (process_points_cloud fl pc).points =
      (pc.points.map (fun v => v.sdiv fl.point_scale)).map (Vec3.clamp3 (-1) 1) := by
  simp [process_points_cloud, Points.clip]

/-! ### Claim theorems -/

/-- C2: every coordinate of every position produced by
`TransformShape.process_points_cloud` lies in the closed interval
`[-1, 1]`; each output position is the input position divided by
`point_scale` and then hard-clamped elementwise to `[-1, 1]` (a truncation,
not a rescale). -/
theorem c2_pointcloud_clip_invariant (fl : Flags) (pc : PointCloudDict)
    (i : Nat) (hi : i < (process_points_cloud fl pc).points.length) :
    (process_points_cloud fl pc).points.getD i ⟨0, 0, 0⟩ =
      Vec3.clamp3 (-1) 1 ((pc.points.getD i ⟨0, 0, 0⟩).sdiv fl.point_scale) ∧
    (-1 ≤ ((process_points_cloud fl pc).points.getD i ⟨0, 0, 0⟩).x ∧
      ((process_points_cloud fl pc).points.getD i ⟨0, 0, 0⟩).x ≤ 1) ∧
    (-1 ≤ ((process_points_cloud fl pc).points.getD i ⟨0, 0, 0⟩).y ∧
      ((process_points_cloud fl pc).points.getD i ⟨0, 0, 0⟩).y ≤ 1) ∧
    (-1 ≤ ((process_points_cloud fl pc).points.getD i ⟨0, 0, 0⟩).z ∧
      ((process_points_cloud fl pc).points.getD i ⟨0, 0, 0⟩).z ≤ 1) := by
  have hlen : (process_points_cloud fl pc).points.length = pc.points.length := by
    rw [process_points_cloud_points]; simp
  have hi1 : i < (pc.points.map (fun v => v.sdiv fl.point_scale)).length := by
    simpa using hlen ▸ hi
  have hi2 : i < pc.points.length := by simpa using hi1
  have hval : (process_points_cloud fl pc).points.getD i ⟨0, 0, 0⟩ =
      Vec3.clamp3 (-1) 1 ((pc.points.getD i ⟨0, 0, 0⟩).sdiv fl.point_scale) := by
    rw [process_points_cloud_points,
      getD_map_of_lt (Vec3.clamp3 (-1) 1) _ hi1 ⟨0, 0, 0⟩ ⟨0, 0, 0⟩,
      getD_map_of_lt (fun v => v.sdiv fl.point_scale) _ hi2 ⟨0, 0, 0⟩ ⟨0, 0, 0⟩]
  refine ⟨hval, ?_, ?_, ?_⟩ <;> rw [hval] <;>
    exact ⟨le_clamp1 _ _ _, clamp1_le _ _ _ (by norm_num)⟩

/-- Witness for C2 at a concrete flag set, point cloud and index. -/
theorem c2_witness :
    0 < (process_points_cloud
        ⟨false, true, false, false, false, false, false, false, 0, 0, 0, 1⟩
        ⟨[⟨0, 0, 0⟩], [⟨0, 0, 0⟩], none⟩).points.length ∧
    ((process_points_cloud
        ⟨false, true, false, false, false, false, false, false, 0, 0, 0, 1⟩
        ⟨[⟨0, 0, 0⟩], [⟨0, 0, 0⟩], none⟩).points.getD 0 ⟨0, 0, 0⟩ =
      Vec3.clamp3 (-1) 1
        ((([⟨0, 0, 0⟩] : List Vec3).getD 0 ⟨0, 0, 0⟩).sdiv 1) ∧
    (-1 ≤ ((process_points_cloud
        ⟨false, true, false, false, false, false, false, false, 0, 0, 0, 1⟩
        ⟨[⟨0, 0, 0⟩], [⟨0, 0, 0⟩], none⟩).points.getD 0 ⟨0, 0, 0⟩).x ∧
      ((process_points_cloud
        ⟨false, true, false, false, false, false, false, false, 0, 0, 0, 1⟩
        ⟨[⟨0, 0, 0⟩], [⟨0, 0, 0⟩], none⟩).points.getD 0 ⟨0, 0, 0⟩).x ≤ 1) ∧
    (-1 ≤ ((process_points_cloud
        ⟨false, true, false, false, false, false, false, false, 0, 0, 0, 1⟩
        ⟨[⟨0, 0, 0⟩], [⟨0, 0, 0⟩], none⟩).points.getD 0 ⟨0, 0, 0⟩).y ∧
      ((process_points_cloud
        ⟨false, true, false, false, false, false, false, false, 0, 0, 0, 1⟩
        ⟨[⟨0, 0, 0⟩], [⟨0, 0, 0⟩], none⟩).points.getD 0 ⟨0, 0, 0⟩).y ≤ 1) ∧
    (-1 ≤ ((process_points_cloud
        ⟨false, true, false, false, false, false, false, false, 0, 0, 0, 1⟩
        ⟨[⟨0, 0, 0⟩], [⟨0, 0, 0⟩], none⟩).points.getD 0 ⟨0, 0, 0⟩).z ∧
      ((process_points_cloud
        ⟨false, true, false, false, false, false, false, false, 0, 0, 0, 1⟩
        ⟨[⟨0, 0, 0⟩], [⟨0, 0, 0⟩], none⟩).points.getD 0 ⟨0, 0, 0⟩).z ≤ 1)) :=
  ⟨by decide, c2_pointcloud_clip_invariant
    ⟨false, true, false, false, false, false, false, false, 0, 0, 0, 1⟩
    ⟨[⟨0, 0, 0⟩], [⟨0, 0, 0⟩], none⟩ 0 (by decide)⟩

/-- C3: `TransformShape.sample_sdf` returns `pos`, `sdf`, `grad` with exactly
`point_sample_num` rows each, and for the drawn index vector (with indices in
`[0, M)`) every output row equals the corresponding input row at the drawn
index, with `pos` equal to the input point divided by `point_scale` and no
clipping applied. -/
theorem c3_sample_sdf_gather (fl : Flags) (sd : SdfDict) (rand_idx : List Nat)
    (hlen : rand_idx.length = fl.point_sample_num)
    (hb : ∀ i ∈ rand_idx, i < sd.points.length)
    (k : Nat) (hk : k < fl.point_sample_num) :
    ((sample_sdf fl sd rand_idx).pos.length = fl.point_sample_num ∧
     (sample_sdf fl sd rand_idx).sdf.length = fl.point_sample_num ∧
     (sample_sdf fl sd rand_idx).grad.length = fl.point_sample_num) ∧
    ((sample_sdf fl sd rand_idx).pos.getD k ⟨0, 0, 0⟩ =
        (sd.points.getD (rand_idx.getD k 0) ⟨0, 0, 0⟩).sdiv fl.point_scale ∧
     (sample_sdf fl sd rand_idx).sdf.getD k 0 =
        sd.sdf.getD (rand_idx.getD k 0) 0 ∧
     (sample_sdf fl sd rand_idx).grad.getD k ⟨0, 0, 0⟩ =
        sd.grad.getD (rand_idx.getD k 0) ⟨0, 0, 0⟩) := by
  have hk1 : k < rand_idx.length := by rw [hlen]; exact hk
  have hik : rand_idx.getD k 0 ∈ rand_idx := by
    rw [List.getD_eq_getElem _ _ hk1]
    exact List.getElem_mem hk1
  have hik2 : rand_idx.getD k 0 < sd.points.length := hb _ hik
  refine ⟨⟨?_, ?_, ?_⟩, ?_, ?_, ?_⟩
  · rw [show (sample_sdf fl sd rand_idx).pos =
        gather (sd.points.map (fun v => v.sdiv fl.point_scale)) rand_idx ⟨0, 0, 0⟩
        from rfl, gather_length, hlen]
  · rw [show (sample_sdf fl sd rand_idx).sdf = gather sd.sdf rand_idx 0 from rfl,
      gather_length, hlen]
  · rw [show (sample_sdf fl sd rand_idx).grad = gather sd.grad rand_idx ⟨0, 0, 0⟩
        from rfl, gather_length, hlen]
  · rw [show (sample_sdf fl sd rand_idx).pos =
        gather (sd.points.map (fun v => v.sdiv fl.point_scale)) rand_idx ⟨0, 0, 0⟩
        from rfl, gather_getD _ _ _ hk1,
      getD_map_of_lt (fun v => v.sdiv fl.point_scale) _ hik2 ⟨0, 0, 0⟩ ⟨0, 0, 0⟩]
  · rw [show (sample_sdf fl sd rand_idx).sdf = gather sd.sdf rand_idx 0 from rfl,
      gather_getD _ _ _ hk1]
  · rw [show (sample_sdf fl sd rand_idx).grad = gather sd.grad rand_idx ⟨0, 0, 0⟩
        from rfl, gather_getD _ _ _ hk1]

/-- Witness for C3 at a concrete flag set, SDF field and index vector. -/
theorem c3_witness :
    ([0, 0] : List Nat).length =
      (⟨false, false, false, false, false, false, true, false, 0, 0, 2, 2⟩ :
        Flags).point_sample_num ∧
    (∀ i ∈ ([0, 0] : List Nat), i < ([⟨2, 0, 0⟩] : List Vec3).length) ∧
    0 < 2 ∧
    (((sample_sdf
        ⟨false, false, false, false, false, false, true, false, 0, 0, 2, 2⟩
        ⟨[⟨2, 0, 0⟩], [⟨1, 0, 0⟩], [3]⟩ [0, 0]).pos.length = 2 ∧
      (sample_sdf
        ⟨false, false, false, false, false, false, true, false, 0, 0, 2, 2⟩
        ⟨[⟨2, 0, 0⟩], [⟨1, 0, 0⟩], [3]⟩ [0, 0]).sdf.length = 2 ∧
      (sample_sdf
        ⟨false, false, false, false, false, false, true, false, 0, 0, 2, 2⟩
        ⟨[⟨2, 0, 0⟩], [⟨1, 0, 0⟩], [3]⟩ [0, 0]).grad.length = 2) ∧
     ((sample_sdf
        ⟨false, false, false, false, false, false, true, false, 0, 0, 2, 2⟩
        ⟨[⟨2, 0, 0⟩], [⟨1, 0, 0⟩], [3]⟩ [0, 0]).pos.getD 0 ⟨0, 0, 0⟩ =
        (([⟨2, 0, 0⟩] : List Vec3).getD (([0, 0] : List Nat).getD 0 0)
          ⟨0, 0, 0⟩).sdiv 2 ∧
      (sample_sdf
        ⟨false, false, false, false, false, false, true, false, 0, 0, 2, 2⟩
        ⟨[⟨2, 0, 0⟩], [⟨1, 0, 0⟩], [3]⟩ [0, 0]).sdf.getD 0 0 =
        ([3] : List ℝ).getD (([0, 0] : List Nat).getD 0 0) 0 ∧
      (sample_sdf
        ⟨false, false, false, false, false, false, true, false, 0, 0, 2, 2⟩
        ⟨[⟨2, 0, 0⟩], [⟨1, 0, 0⟩], [3]⟩ [0, 0]).grad.getD 0 ⟨0, 0, 0⟩ =
        ([⟨1, 0, 0⟩] : List Vec3).getD (([0, 0] : List Nat).getD 0 0)
          ⟨0, 0, 0⟩)) :=
  ⟨rfl, by decide, by decide, c3_sample_sdf_gather
    ⟨false, false, false, false, false, false, true, false, 0, 0, 2, 2⟩
    ⟨[⟨2, 0, 0⟩], [⟨1, 0, 0⟩], [3]⟩ [0, 0] rfl (by decide) 0 (by decide)⟩

/-- C1 counterexample: with both `load_octree` and `load_pointcloud` enabled,
`TransformShape.__call__` completes on a raw mapping carrying `octree_in`,
yet the final training sample does NOT contain the key `octree_in` — the
point-cloud step replaced the whole output mapping instead of merging. -/
theorem c1_counterexample :
    (⟨true, true, false, false, false, false, false, false, 0, 0, 0, 1⟩ :
      Flags).load_octree = true ∧
    (⟨true, true, false, false, false, false, false, false, 0, 0, 0, 1⟩ :
      Flags).load_pointcloud = true ∧
    ({ octree_in := some 7, point_cloud := some ⟨[], [], none⟩ } :
      RawSample).octree_in = some 7 ∧
    (TransformShape.call
        ⟨true, true, false, false, false, false, false, false, 0, 0, 0, 1⟩
        { octree_in := some 7, point_cloud := some ⟨[], [], none⟩ }
        0 [] [] []).toOption.map (fun d => dget d "octree_in") = some none :=
  ⟨rfl, rfl, rfl, rfl⟩

/-- C1 amended: the flag-gated steps run in the fixed source order, but the
point-cloud step REPLACES the whole output mapping rather than merging into
it; hence `octree_in` copied in step 1 survives to the final training sample
exactly when `load_pointcloud` is disabled, and whenever `load_pointcloud`
is enabled the final sample has no `octree_in` key. -/
theorem c1_amended (fl : Flags) (sample : RawSample) (idx : Nat)
    (sdfIdx onIdx offIdx : List Nat) (out : OutDict)
    (hcall : TransformShape.call fl sample idx sdfIdx onIdx offIdx = .ok out) :
    (fl.load_octree = true → fl.load_pointcloud = false →
      ∀ o, sample.octree_in = some o → dget out "octree_in" = some (.blob o)) ∧
    (fl.load_pointcloud = true → dget out "octree_in" = none) := by
  obtain ⟨o1, o2, o3, o4, o5, h1, h2, h3, h4, h5, h6⟩ :=
    transform_call_decomp hcall
  have frame : dget out "octree_in" = dget o2 "octree_in" := by
    rw [tfSurf_frame h6 (by decide) (by decide) (by decide),
      tfSdf_frame h5 (by decide) (by decide) (by decide),
      tfSplitLarge_frame h4 (by decide),
      tfSplitSmall_frame h3 (by decide)]
  constructor
  · intro ho hpc o hoc
    have ho2 : o2 = o1 := by
      unfold tfPointcloud at h2
      rw [hpc] at h2
      simp only [Bool.false_eq_true, if_false] at h2
      cases h2
      rfl
    have ho1 : dget o1 "octree_in" = some (.blob o) := by
      unfold tfOctree at h1
      rw [ho, if_pos rfl, hoc] at h1
      cases h1
      exact dget_dinsert_self _ _ _
    rw [frame, ho2, ho1]
  · intro hpc
    have hrep : ∃ pc, o2 = [("points", Val.pts (process_points_cloud fl pc))] := by
      unfold tfPointcloud at h2
      rw [hpc, if_pos rfl] at h2
      cases hpc2 : sample.point_cloud with
      | none => rw [hpc2] at h2; cases h2
      | some pc => rw [hpc2] at h2; cases h2; exact ⟨pc, rfl⟩
    obtain ⟨pc, ho2⟩ := hrep
    rw [frame, ho2]
    rfl

/-- Witness for the amended C1 at a concrete flag set and raw mapping. -/
theorem c1_amended_witness :
    TransformShape.call
        ⟨true, true, false, false, false, false, false, false, 0, 0, 0, 1⟩
        { octree_in := some 7, point_cloud := some ⟨[], [], none⟩ } 0 [] [] [] =
      .ok ((TransformShape.call
        ⟨true, true, false, false, false, false, false, false, 0, 0, 0, 1⟩
        { octree_in := some 7, point_cloud := some ⟨[], [], none⟩ }
        0 [] [] []).toOption.getD []) ∧
    (((⟨true, true, false, false, false, false, false, false, 0, 0, 0, 1⟩ :
        Flags).load_octree = true →
      (⟨true, true, false, false, false, false, false, false, 0, 0, 0, 1⟩ :
        Flags).load_pointcloud = false →
      ∀ o, ({ octree_in := some 7, point_cloud := some ⟨[], [], none⟩ } :
          RawSample).octree_in = some o →
        dget ((TransformShape.call
          ⟨true, true, false, false, false, false, false, false, 0, 0, 0, 1⟩
          { octree_in := some 7, point_cloud := some ⟨[], [], none⟩ }
          0 [] [] []).toOption.getD []) "octree_in" = some (.blob o)) ∧
    ((⟨true, true, false, false, false, false, false, false, 0, 0, 0, 1⟩ :
        Flags).load_pointcloud = true →
      dget ((TransformShape.call
        ⟨true, true, false, false, false, false, false, false, 0, 0, 0, 1⟩
        { octree_in := some 7, point_cloud := some ⟨[], [], none⟩ }
        0 [] [] []).toOption.getD []) "octree_in" = none)) :=
  ⟨rfl, c1_amended
    ⟨true, true, false, false, false, false, false, false, 0, 0, 0, 1⟩
    { octree_in := some 7, point_cloud := some ⟨[], [], none⟩ } 0 [] [] [] _ rfl⟩

/-- C4: with `sample_surf_points` enabled, the final `pos`, `sdf`, `grad`
each have exactly `2 * point_sample_num` rows, formed by concatenating the
on-surface set before the off-surface set; the first `point_sample_num` rows
have `sdf = 0` with gradient equal to the sampled surface normal, and the
remaining `point_sample_num` rows have `sdf = -1`. -/
theorem c4_surf_synthesis (fl : Flags) (sample : RawSample) (idx : Nat)
    (sdfIdx onIdx offIdx : List Nat) (out : OutDict)
    (P N : List Vec3) (SD : SdfDict)
    (hs : fl.sample_surf_points = true)
    (hP : sample.points = some P) (hN : sample.normals = some N)
    (hSD : sample.sdf = some SD)
    (hon : onIdx.length = fl.point_sample_num)
    (hoff : offIdx.length = fl.point_sample_num)
    (hcall : TransformShape.call fl sample idx sdfIdx onIdx offIdx = .ok out) :
    (dget out "pos" = some (.arr3 ((sample_on_surface fl P N onIdx).pos ++
        (sample_off_surface fl SD.points offIdx).pos)) ∧
     dget out "grad" = some (.arr3 ((sample_on_surface fl P N onIdx).grad ++
        (sample_off_surface fl SD.points offIdx).grad)) ∧
     dget out "sdf" = some (.arr1 ((sample_on_surface fl P N onIdx).sdf ++
        (sample_off_surface fl SD.points offIdx).sdf))) ∧
    (((sample_on_surface fl P N onIdx).pos ++
        (sample_off_surface fl SD.points offIdx).pos).length =
       2 * fl.point_sample_num ∧
     ((sample_on_surface fl P N onIdx).grad ++
        (sample_off_surface fl SD.points offIdx).grad).length =
       2 * fl.point_sample_num ∧
     ((sample_on_surface fl P N onIdx).sdf ++
        (sample_off_surface fl SD.points offIdx).sdf).length =
       2 * fl.point_sample_num) ∧
    (∀ k, k < fl.point_sample_num →
      ((sample_on_surface fl P N onIdx).sdf ++
        (sample_off_surface fl SD.points offIdx).sdf).getD k 37 = 0 ∧
      ((sample_on_surface fl P N onIdx).grad ++
        (sample_off_surface fl SD.points offIdx).grad).getD k ⟨0, 0, 0⟩ =
        N.getD (onIdx.getD k 0) ⟨0, 0, 0⟩) ∧
    (∀ k, fl.point_sample_num ≤ k → k < 2 * fl.point_sample_num →
      ((sample_on_surface fl P N onIdx).sdf ++
        (sample_off_surface fl SD.points offIdx).sdf).getD k 37 = -1) := by
  obtain ⟨o1, o2, o3, o4, o5, h1, h2, h3, h4, h5, h6⟩ :=
    transform_call_decomp hcall
  have hvals := tfSurf_values h6 hs hP hN hSD
  have lonpos : (sample_on_surface fl P N onIdx).pos.length =
      fl.point_sample_num := by
    rw [show (sample_on_surface fl P N onIdx).pos = gather P onIdx ⟨0, 0, 0⟩
      from rfl, gather_length, hon]
  have longrad : (sample_on_surface fl P N onIdx).grad.length =
      fl.point_sample_num := by
    rw [show (sample_on_surface fl P N onIdx).grad = gather N onIdx ⟨0, 0, 0⟩
      from rfl, gather_length, hon]
  have lonsdf : (sample_on_surface fl P N onIdx).sdf.length =
      fl.point_sample_num := by
    rw [show (sample_on_surface fl P N onIdx).sdf =
      List.replicate fl.point_sample_num 0 from rfl, List.length_replicate]
  have loffpos : (sample_off_surface fl SD.points offIdx).pos.length =
      fl.point_sample_num := by
    rw [show (sample_off_surface fl SD.points offIdx).pos =
      gather (SD.points.map (fun v => v.sdiv fl.point_scale)) offIdx ⟨0, 0, 0⟩
      from rfl, gather_length, hoff]
  have loffgrad : (sample_off_surface fl SD.points offIdx).grad.length =
      fl.point_sample_num := by
    rw [show (sample_off_surface fl SD.points offIdx).grad =
      (gather (SD.points.map (fun v => v.sdiv fl.point_scale)) offIdx
        ⟨0, 0, 0⟩).map (fun v => v.sdiv (norm3 v + 1 / 1000000)) from rfl,
      List.length_map, gather_length, hoff]
  have loffsdf : (sample_off_surface fl SD.points offIdx).sdf.length =
      fl.point_sample_num := by
    rw [show (sample_off_surface fl SD.points offIdx).sdf =
      List.replicate fl.point_sample_num (-1) from rfl, List.length_replicate]
  refine ⟨hvals, ⟨?_, ?_, ?_⟩, ?_, ?_⟩
  · rw [List.length_append, lonpos, loffpos, two_mul]
  · rw [List.length_append, longrad, loffgrad, two_mul]
  · rw [List.length_append, lonsdf, loffsdf, two_mul]
  · intro k hk
    constructor
    · rw [List.getD_append _ _ _ _ (lonsdf ▸ hk),
        show (sample_on_surface fl P N onIdx).sdf =
          List.replicate fl.point_sample_num 0 from rfl,
        getD_replicate_of_lt _ _ hk]
    · rw [List.getD_append _ _ _ _ (longrad ▸ hk),
        show (sample_on_surface fl P N onIdx).grad = gather N onIdx ⟨0, 0, 0⟩
          from rfl, gather_getD _ _ _ (hon ▸ hk)]
  · intro k hk1 hk2
    rw [List.getD_append_right _ _ _ _ (lonsdf ▸ hk1),
      show (sample_off_surface fl SD.points offIdx).sdf =
        List.replicate fl.point_sample_num (-1) from rfl, lonsdf,
      getD_replicate_of_lt _ _ (by omega)]

/-- Witness for C4 at a concrete flag set, raw mapping and index vectors. -/
theorem c4_witness :
    (⟨false, false, false, false, false, false, false, true, 0, 0, 1, 1⟩ :
      Flags).sample_surf_points = true ∧
    ([0] : List Nat).length = 1 ∧
    (dget ((TransformShape.call
        ⟨false, false, false, false, false, false, false, true, 0, 0, 1, 1⟩
        { sdf := some ⟨[⟨0, 0, 0⟩], [⟨0, 0, 0⟩], [0]⟩,
          points := some [⟨0, 0, 0⟩], normals := some [⟨0, 0, 0⟩] }
        0 [] [0] [0]).toOption.getD []) "pos" =
      some (.arr3 ((sample_on_surface
          ⟨false, false, false, false, false, false, false, true, 0, 0, 1, 1⟩
          [⟨0, 0, 0⟩] [⟨0, 0, 0⟩] [0]).pos ++
        (sample_off_surface
          ⟨false, false, false, false, false, false, false, true, 0, 0, 1, 1⟩
          (⟨[⟨0, 0, 0⟩], [⟨0, 0, 0⟩], [0]⟩ : SdfDict).points [0]).pos)) ∧
     dget ((TransformShape.call
        ⟨false, false, false, false, false, false, false, true, 0, 0, 1, 1⟩
        { sdf := some ⟨[⟨0, 0, 0⟩], [⟨0, 0, 0⟩], [0]⟩,
          points := some [⟨0, 0, 0⟩], normals := some [⟨0, 0, 0⟩] }
        0 [] [0] [0]).toOption.getD []) "grad" =
      some (.arr3 ((sample_on_surface
          ⟨false, false, false, false, false, false, false, true, 0, 0, 1, 1⟩
          [⟨0, 0, 0⟩] [⟨0, 0, 0⟩] [0]).grad ++
        (sample_off_surface
          ⟨false, false, false, false, false, false, false, true, 0, 0, 1, 1⟩
          (⟨[⟨0, 0, 0⟩], [⟨0, 0, 0⟩], [0]⟩ : SdfDict).points [0]).grad)) ∧
     dget ((TransformShape.call
        ⟨false, false, false, false, false, false, false, true, 0, 0, 1, 1⟩
        { sdf := some ⟨[⟨0, 0, 0⟩], [⟨0, 0, 0⟩], [0]⟩,
          points := some [⟨0, 0, 0⟩], normals := some [⟨0, 0, 0⟩] }
        0 [] [0] [0]).toOption.getD []) "sdf" =
      some (.arr1 ((sample_on_surface
          ⟨false, false, false, false, false, false, false, true, 0, 0, 1, 1⟩
          [⟨0, 0, 0⟩] [⟨0, 0, 0⟩] [0]).sdf ++
        (sample_off_surface
          ⟨false, false, false, false, false, false, false, true, 0, 0, 1, 1⟩
          (⟨[⟨0, 0, 0⟩], [⟨0, 0, 0⟩], [0]⟩ : SdfDict).points [0]).sdf))) ∧
    ((sample_on_surface
        ⟨false, false, false, false, false, false, false, true, 0, 0, 1, 1⟩
        [⟨0, 0, 0⟩] [⟨0, 0, 0⟩] [0]).sdf ++
      (sample_off_surface
        ⟨false, false, false, false, false, false, false, true, 0, 0, 1, 1⟩
        (⟨[⟨0, 0, 0⟩], [⟨0, 0, 0⟩], [0]⟩ : SdfDict).points [0]).sdf).length =
      2 * 1 := by
  have h := c4_surf_synthesis
    ⟨false, false, false, false, false, false, false, true, 0, 0, 1, 1⟩
    { sdf := some ⟨[⟨0, 0, 0⟩], [⟨0, 0, 0⟩], [0]⟩,
      points := some [⟨0, 0, 0⟩], normals := some [⟨0, 0, 0⟩] }
    0 [] [0] [0] _ [⟨0, 0, 0⟩] [⟨0, 0, 0⟩] ⟨[⟨0, 0, 0⟩], [⟨0, 0, 0⟩], [0]⟩
    rfl rfl rfl rfl rfl rfl rfl
  exact ⟨rfl, rfl, h.1, h.2.1.2.2⟩

/-- C5: when both `load_sdf` and `sample_surf_points` are enabled, the final
`pos`, `sdf`, `grad` equal the on/off-surface synthesis output of step 5
exactly — step 5's `update` overwrites the keys written by the SDF
subsampling of step 4. -/
theorem c5_surf_overwrites_sdf (fl : Flags) (sample : RawSample) (idx : Nat)
    (sdfIdx onIdx offIdx : List Nat) (out : OutDict)
    (P N : List Vec3) (SD : SdfDict)
    (hsdf : fl.load_sdf = true) (hs : fl.sample_surf_points = true)
    (hP : sample.points = some P) (hN : sample.normals = some N)
    (hSD : sample.sdf = some SD)
    (hcall : TransformShape.call fl sample idx sdfIdx onIdx offIdx = .ok out) :
    dget out "pos" = some (.arr3 ((sample_on_surface fl P N onIdx).pos ++
        (sample_off_surface fl SD.points offIdx).pos)) ∧
    dget out "grad" = some (.arr3 ((sample_on_surface fl P N onIdx).grad ++
        (sample_off_surface fl SD.points offIdx).grad)) ∧
    dget out "sdf" = some (.arr1 ((sample_on_surface fl P N onIdx).sdf ++
        (sample_off_surface fl SD.points offIdx).sdf)) := by
  obtain ⟨o1, o2, o3, o4, o5, h1, h2, h3, h4, h5, h6⟩ :=
    transform_call_decomp hcall
  exact tfSurf_values h6 hs hP hN hSD

/-- Witness for C5 at a concrete flag set, raw mapping and index vectors. -/
theorem c5_witness :
    (⟨false, false, false, false, false, false, true, true, 0, 0, 1, 1⟩ :
      Flags).load_sdf = true ∧
    (⟨false, false, false, false, false, false, true, true, 0, 0, 1, 1⟩ :
      Flags).sample_surf_points = true ∧
    dget ((TransformShape.call
        ⟨false, false, false, false, false, false, true, true, 0, 0, 1, 1⟩
        { sdf := some ⟨[⟨0, 0, 0⟩], [⟨0, 0, 0⟩], [5]⟩,
          points := some [⟨0, 0, 0⟩], normals := some [⟨0, 0, 0⟩] }
        0 [0] [0] [0]).toOption.getD []) "sdf" =
      some (.arr1 ((sample_on_surface
          ⟨false, false, false, false, false, false, true, true, 0, 0, 1, 1⟩
          [⟨0, 0, 0⟩] [⟨0, 0, 0⟩] [0]).sdf ++
        (sample_off_surface
          ⟨false, false, false, false, false, false, true, true, 0, 0, 1, 1⟩
          (⟨[⟨0, 0, 0⟩], [⟨0, 0, 0⟩], [5]⟩ : SdfDict).points [0]).sdf)) := by
  have h := c5_surf_overwrites_sdf
    ⟨false, false, false, false, false, false, true, true, 0, 0, 1, 1⟩
    { sdf := some ⟨[⟨0, 0, 0⟩], [⟨0, 0, 0⟩], [5]⟩,
      points := some [⟨0, 0, 0⟩], normals := some [⟨0, 0, 0⟩] }
    0 [0] [0] [0] _ [⟨0, 0, 0⟩] [⟨0, 0, 0⟩] ⟨[⟨0, 0, 0⟩], [⟨0, 0, 0⟩], [5]⟩
    rfl rfl rfl rfl rfl rfl
  exact ⟨rfl, rfl, h.2.2⟩

/-- C6 counterexample: with only `load_split_large` enabled and a failing
`split_large` deserialization, `ReadFile.__call__` does NOT complete: the
caught load failure leaves the staging variable unbound, so the unconditional
`output['split_large'] = raw` itself raises (a NameError), contradicting
"does not raise, the call completes and returns" for every location. -/
theorem c6_counterexample :
    (⟨false, false, false, false, true, false, false, false, 0, 0, 0, 1⟩ :
      Flags).load_split_large = true ∧
    ({} : ShapeRecord).splitLargeFile = none ∧
    ReadFile.call
      ⟨false, false, false, false, true, false, false, false, 0, 0, 0, 1⟩
      ({} : ShapeRecord) = .error "NameError: raw" :=
  ⟨rfl, rfl, rfl⟩

/-- C6 amended: a failing `split_large` deserialization is caught and not
re-raised, and the `split_large` key is set to the stale value left in the
loader's staging variable by the most recent earlier successful load (here
the `split_small` tensor), the call completing normally — but only when an
earlier enabled load step has bound the staging variable; with no earlier
load the key assignment itself raises, as the counterexample shows. -/
theorem c6_amended (fl : Flags) (rec : ShapeRecord) (t : Nat)
    (h1 : fl.load_octree = false) (h2 : fl.load_pointcloud = false)
    (h3 : fl.load_split_small = true) (h4 : fl.load_split_large = true)
    (h5 : fl.load_occu = false) (h6 : fl.load_sdf = false)
    (hss : rec.splitSmallFile = some t) (hsl : rec.splitLargeFile = none) :
    ReadFile.call fl rec =
      .ok { split_small := some (.tensorFile t),
            split_large := some (.tensorFile t) } := by
  unfold ReadFile.call readOctree readPointcloud readSplitSmall readSplitLarge
    readOccu readSdf
  rw [h1, h2, h3, h4, h5, h6, hss, hsl]
  simp [Except.bind, Except.map]

/-- Witness for the amended C6 at a concrete flag set and shape record. -/
theorem c6_amended_witness :
    (⟨false, false, false, true, true, false, false, false, 0, 0, 0, 1⟩ :
      Flags).load_split_small = true ∧
    (⟨false, false, false, true, true, false, false, false, 0, 0, 0, 1⟩ :
      Flags).load_split_large = true ∧
    ({ splitSmallFile := some 5 } : ShapeRecord).splitLargeFile = none ∧
    ReadFile.call
      ⟨false, false, false, true, true, false, false, false, 0, 0, 0, 1⟩
      { splitSmallFile := some 5 } =
      .ok { split_small := some (.tensorFile 5),
            split_large := some (.tensorFile 5) } :=
  ⟨rfl, rfl, rfl, c6_amended
    ⟨false, false, false, true, true, false, false, false, 0, 0, 0, 1⟩
    { splitSmallFile := some 5 } 5 rfl rfl rfl rfl rfl rfl rfl rfl⟩

/-- C7: with all six load flags false the Raw Loader returns the empty
mapping for every shape record (no file content is consulted); and on any
successful call each flag gates exactly its own key, with no other keys —
in particular no top-level `points` / `normals` — ever produced. -/
theorem c7_flag_gating (fl : Flags) (rec : ShapeRecord) :
    (fl.load_octree = false → fl.load_pointcloud = false →
     fl.load_split_small = false → fl.load_split_large = false →
     fl.load_occu = false → fl.load_sdf = false →
     ReadFile.call fl rec = .ok {}) ∧
    (∀ out, ReadFile.call fl rec = .ok out →
      out.octree_in.isSome = fl.load_octree ∧
      out.point_cloud.isSome = fl.load_pointcloud ∧
      out.split_small.isSome = fl.load_split_small ∧
      out.split_large.isSome = fl.load_split_large ∧
      out.occu.isSome = fl.load_occu ∧
      out.sdf.isSome = fl.load_sdf ∧
      out.points = none ∧ out.normals = none) := by
  constructor
  · intro h1 h2 h3 h4 h5 h6
    unfold ReadFile.call readOctree readPointcloud readSplitSmall readSplitLarge
      readOccu readSdf
    rw [h1, h2, h3, h4, h5, h6]
    simp [Except.bind, Except.map]
  · intro out h
    exact readFile_gating h

/-- Witness for C7: the all-flags-false instance returns the empty mapping. -/
theorem c7_witness :
    ReadFile.call
      ⟨false, false, false, false, false, false, false, false, 0, 0, 0, 1⟩
      ({ octreeFile := some 3 } : ShapeRecord) = .ok {} :=
  (c7_flag_gating
    ⟨false, false, false, false, false, false, false, false, 0, 0, 0, 1⟩
    { octreeFile := some 3 }).1 rfl rfl rfl rfl rfl rfl

/-- C8: with `load_pointcloud` enabled and `load_color` disabled, the
returned `point_cloud` carries the points and normals read from the archive
and its `colors` entry is the explicit absent marker (`None`), never an
empty array. -/
theorem c8_colors_absent_marker (fl : Flags) (rec : ShapeRecord)
    (out : RawSample) (P Nrm : List Vec3)
    (hpc : fl.load_pointcloud = true) (hc : fl.load_color = false)
    (hrec : rec.pointcloudFile = some (P, Nrm))
    (h : ReadFile.call fl rec = .ok out) :
    out.point_cloud = some ⟨P, Nrm, none⟩ := by
  obtain ⟨s1, s2, s3, s4, s5, s6, h1, h2, h3, h4, h5, h6, hout⟩ :=
    readFile_call_decomp h
  have f3 := (readSplitSmall_spec h3).2.2.1
  have f4 := (readSplitLarge_spec h4).2.2.1
  have f5 := (readOccu_spec h5).2.2.1
  have f6 := (readSdf_spec h6).2.2.1
  have hv : s2.1.point_cloud = some ⟨P, Nrm, none⟩ := by
    unfold readPointcloud at h2
    rw [hpc, if_pos rfl, hrec] at h2
    simp only [hc, Bool.false_eq_true, if_false] at h2
    cases h2
    rfl
  rw [hout, f6, f5, f4, f3, hv]

/-- Witness for C8 at a concrete flag set and shape record. -/
theorem c8_witness :
    (⟨false, true, false, false, false, false, false, false, 0, 0, 0, 1⟩ :
      Flags).load_pointcloud = true ∧
    (⟨false, true, false, false, false, false, false, false, 0, 0, 0, 1⟩ :
      Flags).load_color = false ∧
    ((ReadFile.call
        ⟨false, true, false, false, false, false, false, false, 0, 0, 0, 1⟩
        { pointcloudFile := some ([⟨1, 2, 3⟩], [⟨0, 0, 1⟩]) }).toOption.getD
      {}).point_cloud = some ⟨[⟨1, 2, 3⟩], [⟨0, 0, 1⟩], none⟩ :=
  ⟨rfl, rfl, c8_colors_absent_marker
    ⟨false, true, false, false, false, false, false, false, 0, 0, 0, 1⟩
    { pointcloudFile := some ([⟨1, 2, 3⟩], [⟨0, 0, 1⟩]) } _
    [⟨1, 2, 3⟩] [⟨0, 0, 1⟩] rfl rfl rfl rfl⟩

theorem tfOctree_succeeds {fl : Flags} {raw : RawSample} (o : OutDict)
    (h : raw.octree_in.isSome = fl.load_octree) :
    ∃ o2, tfOctree fl raw o = .ok o2 := by
  cases hfl : fl.load_octree with
  | false => exact ⟨o, by simp [tfOctree, hfl]⟩
  | true =>
    rw [hfl] at h
    cases ho : raw.octree_in with
    | none => rw [ho] at h; simp at h
    | some v =>
      exact ⟨dinsert o "octree_in" (.blob v), by simp [tfOctree, hfl, ho]⟩

theorem tfPointcloud_succeeds {fl : Flags} {raw : RawSample} (o : OutDict)
    (h : raw.point_cloud.isSome = fl.load_pointcloud) :
    ∃ o2, tfPointcloud fl raw o = .ok o2 := by
  cases hfl : fl.load_pointcloud with
  | false => exact ⟨o, by simp [tfPointcloud, hfl]⟩
  | true =>
    rw [hfl] at h
    cases ho : raw.point_cloud with
    | none => rw [ho] at h; simp at h
    | some v =>
      exact ⟨[("points", Val.pts (process_points_cloud fl v))],
        by simp [tfPointcloud, hfl, ho]⟩

theorem tfSplitSmall_succeeds {fl : Flags} {raw : RawSample} (o : OutDict)
    (h : raw.split_small.isSome = fl.load_split_small) :
    ∃ o2, tfSplitSmall fl raw o = .ok o2 := by
  cases hfl : fl.load_split_small with
  | false => exact ⟨o, by simp [tfSplitSmall, hfl]⟩
  | true =>
    rw [hfl] at h
    cases ho : raw.split_small with
    | none => rw [ho] at h; simp at h
    | some v =>
      exact ⟨dinsert o "split_small" (.py v), by simp [tfSplitSmall, hfl, ho]⟩

theorem tfSplitLarge_succeeds {fl : Flags} {raw : RawSample} (o : OutDict)
    (h : raw.split_large.isSome = fl.load_split_large) :
    ∃ o2, tfSplitLarge fl raw o = .ok o2 := by
  cases hfl : fl.load_split_large with
  | false => exact ⟨o, by simp [tfSplitLarge, hfl]⟩
  | true =>
    rw [hfl] at h
    cases ho : raw.split_large with
    | none => rw [ho] at h; simp at h
    | some v =>
      exact ⟨dinsert o "split_large" (.py v), by simp [tfSplitLarge, hfl, ho]⟩

theorem tfSdf_succeeds {fl : Flags} {raw : RawSample} (sdfIdx : List Nat)
    (o : OutDict) (h : raw.sdf.isSome = fl.load_sdf) :
    ∃ o2, tfSdf fl raw sdfIdx o = .ok o2 := by
  cases hfl : fl.load_sdf with
  | false => exact ⟨o, by simp [tfSdf, hfl]⟩
  | true =>
    rw [hfl] at h
    cases ho : raw.sdf with
    | none => rw [ho] at h; simp at h
    | some v =>
      exact ⟨dupdate o
        [("pos", .arr3 (sample_sdf fl v sdfIdx).pos),
         ("sdf", .arr1 (sample_sdf fl v sdfIdx).sdf),
         ("grad", .arr3 (sample_sdf fl v sdfIdx).grad)],
        by simp [tfSdf, hfl, ho]⟩

/-- C10: on every raw mapping actually produced by the Raw Loader, running
the Shape Transform with `sample_surf_points` enabled fails with the
missing-key error for `points`: the on-surface step looks the point cloud up
at the top level of the raw mapping, where the Raw Loader never stores it. -/
theorem c10_surf_fails_on_loader_output (fl : Flags) (rec : ShapeRecord)
    (raw : RawSample) (idx : Nat) (sdfIdx onIdx offIdx : List Nat)
    (hs : fl.sample_surf_points = true)
    (hload : ReadFile.call fl rec = .ok raw) :
    TransformShape.call fl raw idx sdfIdx onIdx offIdx =
      .error "KeyError: points" := by
  obtain ⟨g1, g2, g3, g4, g5, g6, gpts, gnrm⟩ := readFile_gating hload
  obtain ⟨o1, k1⟩ := tfOctree_succeeds [] g1
  obtain ⟨o2, k2⟩ := tfPointcloud_succeeds o1 g2
  obtain ⟨o3, k3⟩ := tfSplitSmall_succeeds o2 g3
  obtain ⟨o4, k4⟩ := tfSplitLarge_succeeds o3 g4
  obtain ⟨o5, k5⟩ := tfSdf_succeeds sdfIdx o4 g6
  have hsurf : tfSurf fl raw onIdx offIdx o5 = .error "KeyError: points" := by
    unfold tfSurf
    rw [hs, if_pos rfl, gpts]
  simp only [TransformShape.call, k1, k2, k3, k4, k5, Except.bind]
  exact hsurf

/-- Witness for C10 at a concrete flag set and (empty) shape record. -/
theorem c10_witness :
    (⟨false, false, false, false, false, false, false, true, 0, 0, 1, 1⟩ :
      Flags).sample_surf_points = true ∧
    ReadFile.call
      ⟨false, false, false, false, false, false, false, true, 0, 0, 1, 1⟩
      ({} : ShapeRecord) =
      .ok ((ReadFile.call
        ⟨false, false, false, false, false, false, false, true, 0, 0, 1, 1⟩
        ({} : ShapeRecord)).toOption.getD {}) ∧
    TransformShape.call
      ⟨false, false, false, false, false, false, false, true, 0, 0, 1, 1⟩
      ((ReadFile.call
        ⟨false, false, false, false, false, false, false, true, 0, 0, 1, 1⟩
        ({} : ShapeRecord)).toOption.getD {}) 0 [] [] [] =
      .error "KeyError: points" :=
  ⟨rfl, rfl, c10_surf_fails_on_loader_output
    ⟨false, false, false, false, false, false, false, true, 0, 0, 1, 1⟩
    {} _ 0 [] [] [] rfl rfl⟩

theorem norm3_nonneg (v : Vec3) : 0 ≤ norm3 v :=
  Real.sqrt_nonneg _

theorem norm3_axis (a : ℝ) (ha : 0 ≤ a) : norm3 ⟨a, 0, 0⟩ = a := by
  show Real.sqrt (a ^ 2 + 0 ^ 2 + 0 ^ 2) = a
  rw [show a ^ 2 + 0 ^ 2 + 0 ^ 2 = a ^ 2 by ring, Real.sqrt_sq ha]

theorem norm3_sdiv (v : Vec3) {c : ℝ} (hc : 0 < c) :
    norm3 (v.sdiv c) = norm3 v / c := by
  show Real.sqrt ((v.x / c) ^ 2 + (v.y / c) ^ 2 + (v.z / c) ^ 2) =
    Real.sqrt (v.x ^ 2 + v.y ^ 2 + v.z ^ 2) / c
  rw [show (v.x / c) ^ 2 + (v.y / c) ^ 2 + (v.z / c) ^ 2 =
      (v.x ^ 2 + v.y ^ 2 + v.z ^ 2) / c ^ 2 by field_simp,
    Real.sqrt_div (by positivity), Real.sqrt_sq hc.le]

theorem offGrad_norm_close (v : Vec3) (h : 1 / 10 ≤ norm3 v) :
    |norm3 (v.sdiv (norm3 v + 1 / 1000000)) - 1| ≤ 1 / 100000 := by
  have h0 : (0 : ℝ) < norm3 v + 1 / 1000000 := by
    have := norm3_nonneg v
    linarith
  rw [norm3_sdiv v h0]
  have h1 : norm3 v / (norm3 v + 1 / 1000000) - 1 =
      -(1 / 1000000 / (norm3 v + 1 / 1000000)) := by
    field_simp
  rw [h1, abs_neg, abs_of_pos (by positivity), div_le_iff₀ h0]
  linarith

/-- C9 counterexample: an off-surface sample whose rescaled position is
nonzero (norm `1/1000`) but whose gradient `xyz / (‖xyz‖ + 1e-6)` has
Euclidean norm `1000/1001`, deviating from `1` by about `1e-3 > 1e-5`. -/
theorem c9_counterexample :
    norm3 ((sample_off_surface
        ⟨false, false, false, false, false, false, false, false, 0, 0, 1, 1⟩
        [⟨1 / 1000, 0, 0⟩] [0]).pos.getD 0 ⟨0, 0, 0⟩) ≠ 0 ∧
    ¬ (|norm3 ((sample_off_surface
        ⟨false, false, false, false, false, false, false, false, 0, 0, 1, 1⟩
        [⟨1 / 1000, 0, 0⟩] [0]).grad.getD 0 ⟨0, 0, 0⟩) - 1| ≤ 1 / 100000) := by
  have hpos : (sample_off_surface
      ⟨false, false, false, false, false, false, false, false, 0, 0, 1, 1⟩
      [⟨1 / 1000, 0, 0⟩] [0]).pos.getD 0 ⟨0, 0, 0⟩ =
      ⟨1 / 1000 / 1, 0 / 1, 0 / 1⟩ := rfl
  have hvec : (⟨1 / 1000 / 1, 0 / 1, 0 / 1⟩ : Vec3) = ⟨1 / 1000, 0, 0⟩ := by
    simp
  constructor
  · rw [hpos, hvec, norm3_axis _ (by norm_num)]
    norm_num
  · have hgrad : (sample_off_surface
        ⟨false, false, false, false, false, false, false, false, 0, 0, 1, 1⟩
        [⟨1 / 1000, 0, 0⟩] [0]).grad.getD 0 ⟨0, 0, 0⟩ =
        (⟨1 / 1000, 0, 0⟩ : Vec3).sdiv
          (norm3 ⟨1 / 1000, 0, 0⟩ + 1 / 1000000) := by
      rw [show (sample_off_surface
          ⟨false, false, false, false, false, false, false, false, 0, 0, 1, 1⟩
          [⟨1 / 1000, 0, 0⟩] [0]).grad.getD 0 ⟨0, 0, 0⟩ =
          (⟨1 / 1000 / 1, 0 / 1, 0 / 1⟩ : Vec3).sdiv
            (norm3 ⟨1 / 1000 / 1, 0 / 1, 0 / 1⟩ + 1 / 1000000) from rfl, hvec]
    rw [hgrad,
      norm3_sdiv _ (by rw [norm3_axis _ (by norm_num)]; norm_num),
      norm3_axis _ (by norm_num)]
    have h2 : (1 : ℝ) / 1000 / (1 / 1000 + 1 / 1000000) - 1 = -(1 / 1001) := by
      norm_num
    rw [h2, abs_neg, abs_of_pos (by norm_num)]
    norm_num

/-- C9 amended: for every off-surface sample whose rescaled position has
Euclidean norm at least `1/10`, the gradient returned by
`sample_off_surface` has Euclidean norm within `1e-5` of `1`.  (The exact
deviation is `1e-6 / (r + 1e-6)`, which exceeds `1e-5` for nonzero positions
with norm below `≈ 0.1`, as the counterexample at `r = 1e-3` shows.) -/
theorem c9_amended (fl : Flags) (xyz : List Vec3) (rand_idx : List Nat)
    (k : Nat) (hk : k < rand_idx.length)
    (hnorm : 1 / 10 ≤ norm3
      ((sample_off_surface fl xyz rand_idx).pos.getD k ⟨0, 0, 0⟩)) :
    |norm3 ((sample_off_surface fl xyz rand_idx).grad.getD k ⟨0, 0, 0⟩) - 1| ≤
      1 / 100000 := by
  have hlen : (sample_off_surface fl xyz rand_idx).pos.length =
      rand_idx.length := by
    rw [show (sample_off_surface fl xyz rand_idx).pos =
      gather (xyz.map (fun v => v.sdiv fl.point_scale)) rand_idx ⟨0, 0, 0⟩
      from rfl, gather_length]
  have hgrad : (sample_off_surface fl xyz rand_idx).grad.getD k ⟨0, 0, 0⟩ =
      ((sample_off_surface fl xyz rand_idx).pos.getD k ⟨0, 0, 0⟩).sdiv
        (norm3 ((sample_off_surface fl xyz rand_idx).pos.getD k ⟨0, 0, 0⟩) +
          1 / 1000000) := by
    rw [show (sample_off_surface fl xyz rand_idx).grad =
      (sample_off_surface fl xyz rand_idx).pos.map
        (fun v => v.sdiv (norm3 v + 1 / 1000000)) from rfl]
    exact getD_map_of_lt (fun v => v.sdiv (norm3 v + 1 / 1000000))
      (sample_off_surface fl xyz rand_idx).pos
      (lt_of_lt_of_eq hk hlen.symm) ⟨0, 0, 0⟩ ⟨0, 0, 0⟩
  rw [hgrad]
  exact offGrad_norm_close _ hnorm

/-- Witness for the amended C9 at a concrete off-surface sampling call. -/
theorem c9_amended_witness :
    0 < ([0] : List Nat).length ∧
    1 / 10 ≤ norm3 ((sample_off_surface
      ⟨false, false, false, false, false, false, false, false, 0, 0, 1, 1⟩
      [⟨1, 0, 0⟩] [0]).pos.getD 0 ⟨0, 0, 0⟩) ∧
    |norm3 ((sample_off_surface
      ⟨false, false, false, false, false, false, false, false, 0, 0, 1, 1⟩
      [⟨1, 0, 0⟩] [0]).grad.getD 0 ⟨0, 0, 0⟩) - 1| ≤ 1 / 100000 := by
  have e1 : (sample_off_surface
      ⟨false, false, false, false, false, false, false, false, 0, 0, 1, 1⟩
      [⟨1, 0, 0⟩] [0]).pos.getD 0 ⟨0, 0, 0⟩ = ⟨1 / 1, 0 / 1, 0 / 1⟩ := rfl
  have e2 : (⟨1 / 1, 0 / 1, 0 / 1⟩ : Vec3) = ⟨1, 0, 0⟩ := by simp
  have hnorm : 1 / 10 ≤ norm3 ((sample_off_surface
      ⟨false, false, false, false, false, false, false, false, 0, 0, 1, 1⟩
      [⟨1, 0, 0⟩] [0]).pos.getD 0 ⟨0, 0, 0⟩) := by
    rw [e1, e2, norm3_axis 1 (by norm_num)]
    norm_num
  exact ⟨by decide, hnorm, c9_amended
    ⟨false, false, false, false, false, false, false, false, 0, 0, 1, 1⟩
    [⟨1, 0, 0⟩] [0] 0 (by decide) hnorm⟩

end OctFusion
